import Mathlib

/-!
Verification of the orchestration core of the Product-Data-Extraction
pipeline (`run_pipeline.py`): the single-document orchestrator
`process_single_pdf`, the batch orchestrator `process_directory`, and the
dispatch entry point `main`.

The five stage collaborators (PDF extractor, batch extractor, entity
recognizer, normalizer, storage sink) live outside the orchestration
module; the embedding is parametric over them (a `Collab` record of
functions returning `Except`, so an exception raised by a collaborator is
an `.error` value). Filesystem effects are made explicit: each orchestrator
returns, besides its Python return value, the ordered list of JSON
artifacts it wrote and (for the single-document orchestrator) the list of
calls it made to the storage sink.
-/

namespace PDFPipeline

/-- `os.path.basename` for POSIX paths: the part after the last slash. -/
def basename (p : String) : String :=
  String.mk ((p.data.reverse.takeWhile (· != '/')).reverse)

/-- The root part of `os.path.splitext`: drop the suffix starting at the
last dot, unless every character before that dot is itself a dot
(CPython skips leading dots of the file name). -/
def splitextRoot (s : String) : String :=
  let cs := s.data
  match cs.reverse.findIdx? (· == '.') with
  | none => s
  | some r =>
    let i := cs.length - 1 - r
    if (cs.take i).any (· != '.') then String.mk (cs.take i) else s

/-- `filename = os.path.basename(path); base_name = os.path.splitext(filename)[0]`. -/
def base_name (p : String) : String :=
  splitextRoot (basename p)

/-- Python `str.lstrip("*")`: remove every leading `*` character. -/
def lstripStar (s : String) : String :=
  String.mk (s.data.dropWhile (· == '*'))

/-- Result of `process_pdf` for one document, as read by the orchestrator:
a dict whose keys `page_count` and `requires_ocr` may be absent
(`pdf_info.get(..., default)`). The extracted content itself is opaque to
the orchestrator. -/
structure PdfInfo where
  page_count : Option Nat
  requires_ocr : Option Bool
deriving Repr, DecidableEq

/-- Result of `extract_entities`: a dict whose key `entities` (possibly
absent) holds an insertion-ordered mapping from entity-type label to the
list of extracted values. -/
structure EntitiesData where
  entities : Option (List (String × List String))
deriving Repr, DecidableEq

/-- Result of `process_extracted_data`: a dict whose key `products`
(possibly absent) holds the list of normalized product records, opaque to
the orchestrator beyond their count. -/
structure ProcessedData where
  products : Option (List String)
deriving Repr, DecidableEq

/-- Result of `store_processed_data`: a dict read via
`db_result.get('success', False)`, `get('document_id')`,
`get('product_ids', [])`, `get('errors', [])`. -/
structure DbResult where
  success : Option Bool
  document_id : Option Nat
  product_ids : List Nat
  errors : List String
deriving Repr, DecidableEq

/-- The external stage collaborators imported by `run_pipeline.py`. Each
may raise (modelled as `.error`). -/
structure Collab where
  process_pdf : String → Except String PdfInfo
  extract_entities : PdfInfo → Option String → Except String EntitiesData
  process_extracted_data : EntitiesData → Except String ProcessedData
  store_processed_data : ProcessedData → Except String DbResult

/-- One JSON artifact written to the output directory, identified by its
name pattern and the document base name. -/
inductive Artifact where
  | text (base : String)
  | entities (base : String)
  | processed (base : String)
  | db_result (base : String)
deriving Repr, DecidableEq

/-- The `database_storage` section of the single-document summary: either
the skipped marker `{'skipped': True}` or the storage outcome dict. -/
inductive DbSection where
  | skippedMarker
  | stored (outcome : DbResult)
deriving Repr, DecidableEq

/-- The `pdf_info` section of the summary (timing omitted). -/
structure PdfSection where
  filename : String
  page_count : Nat
  requires_ocr : Bool
deriving Repr, DecidableEq

/-- The `entity_extraction` section of the summary (timing omitted). -/
structure EntitySection where
  entity_types : List String
  entity_count : Nat
deriving Repr, DecidableEq

/-- The `data_processing` section of the summary (timing omitted). -/
structure DataSection where
  product_count : Nat
deriving Repr, DecidableEq

/-- The combined `ProcessingSummary` returned by `process_single_pdf`. -/
structure Summary where
  pdf_info : PdfSection
  entity_extraction : EntitySection
  data_processing : DataSection
  database_storage : DbSection
deriving Repr, DecidableEq

/-- `list(entities_data.get('entities', {}).keys())`. -/
def entityTypes (ed : EntitiesData) : List String :=
  (ed.entities.getD []).map Prod.fst

/-- `sum(len(entities) for entities in entities_data.get('entities', {}).values())`. -/
def entityCount (ed : EntitiesData) : Nat :=
  ((ed.entities.getD []).map (fun kv => kv.2.length)).sum

/-- `len(processed_data.get('products', []))`. -/
def productCount (pd : ProcessedData) : Nat :=
  (pd.products.getD []).length

/-- The summary dict assembled at the end of `process_single_pdf`. -/
def mk_summary (filename : String) (pi : PdfInfo) (ed : EntitiesData)
    (pd : ProcessedData) (dbs : DbSection) : Summary :=
  { pdf_info := ⟨filename, pi.page_count.getD 0, pi.requires_ocr.getD false⟩
    entity_extraction := ⟨entityTypes ed, entityCount ed⟩
    data_processing := ⟨productCount pd⟩
    database_storage := dbs }

/-- Observable behaviour of one `process_single_pdf` call: the artifacts
written (in order), the calls made to the storage sink, and either the
returned summary or the uncaught exception. -/
structure SingleRun where
  writes : List Artifact
  sink_calls : List ProcessedData
  result : Except String Summary
deriving Repr

/-- `process_single_pdf(pdf_path, output_dir, model_path,
save_intermediates, store_in_db)`. There is no exception handler, so the
first collaborator failure aborts the call with the writes performed so
far. -/
def process_single_pdf (c : Collab) (pdf_path : String)
    (model_path : Option String) (save_intermediates : Bool)
    (store_in_db : Bool) : SingleRun :=
  let filename := basename pdf_path
  let base := splitextRoot filename
  match c.process_pdf pdf_path with
  | .error e => ⟨[], [], .error e⟩
  | .ok pdf_info =>
    let w1 := if save_intermediates then [Artifact.text base] else []
    match c.extract_entities pdf_info model_path with
    | .error e => ⟨w1, [], .error e⟩
    | .ok entities_data =>
      let w2 := w1 ++ (if save_intermediates then [Artifact.entities base] else [])
      match c.process_extracted_data entities_data with
      | .error e => ⟨w2, [], .error e⟩
      | .ok processed_data =>
        let w3 := w2 ++ [Artifact.processed base]
        if store_in_db then
          match c.store_processed_data processed_data with
          | .error e => ⟨w3, [processed_data], .error e⟩
          | .ok db_result =>
            ⟨w3 ++ [Artifact.db_result base], [processed_data],
             .ok (mk_summary filename pdf_info entities_data processed_data
               (DbSection.stored db_result))⟩
        else
          ⟨w3, [],
           .ok (mk_summary filename pdf_info entities_data processed_data
             DbSection.skippedMarker)⟩

/-- Contribution of one file of the batch loop: the artifacts it wrote and
its increments to the `successful`, `failed` and `products_found`
accumulators. -/
structure FileStep where
  writes : List Artifact
  succ : Nat
  fail : Nat
  prods : Nat
deriving Repr, DecidableEq

/-- One iteration of the per-file loop of `process_directory`. `extracted`
maps a base name to the content of `<base>.json` in the output directory
(`none` when the batch extractor left no artifact). The whole body runs
under `try/except`, so a collaborator `.error` yields `failed += 1` and the
writes performed before the exception. -/
def process_batch_file (c : Collab) (extracted : String → Option PdfInfo)
    (model_path : Option String) (save_intermediates : Bool)
    (store_in_db : Bool) (pdf_file : String) : FileStep :=
  let base := splitextRoot (basename pdf_file)
  match extracted base with
  | none => ⟨[], 0, 1, 0⟩
  | some pdf_info =>
    match c.extract_entities pdf_info model_path with
    | .error _ => ⟨[], 0, 1, 0⟩
    | .ok entities_data =>
      let w1 := if save_intermediates then [Artifact.entities base] else []
      match c.process_extracted_data entities_data with
      | .error _ => ⟨w1, 0, 1, 0⟩
      | .ok processed_data =>
        let w2 := w1 ++ [Artifact.processed base]
        if store_in_db then
          match c.store_processed_data processed_data with
          | .error _ => ⟨w2, 0, 1, 0⟩
          | .ok db_result =>
            let w3 := w2 ++ [Artifact.db_result base]
            if db_result.success.getD false then
              ⟨w3, 1, 0, productCount processed_data⟩
            else
              ⟨w3, 0, 1, 0⟩
        else
          ⟨w2, 1, 0, productCount processed_data⟩

/-- The sequential per-file loop of `process_directory`, accumulating
writes and counters over the discovered files in order. -/
def batch_loop (c : Collab) (extracted : String → Option PdfInfo)
    (model_path : Option String) (save_intermediates : Bool)
    (store_in_db : Bool) : List String → FileStep
  | [] => ⟨[], 0, 0, 0⟩
  | f :: fs =>
    let s := process_batch_file c extracted model_path save_intermediates
      store_in_db f
    let r := batch_loop c extracted model_path save_intermediates
      store_in_db fs
    ⟨s.writes ++ r.writes, s.succ + r.succ, s.fail + r.fail, s.prods + r.prods⟩

/-- The dict returned by `process_directory`: either the early
`{'error': ..., 'file_count': 0}` return or the accumulated summary. -/
inductive BatchResult where
  | no_files (error : String) (file_count : Nat)
  | summary (file_count : Nat) (successful : Nat) (failed : Nat)
      (products_found : Nat)
deriving Repr, DecidableEq

/-- The arguments `process_directory` passes to `process_pdf_batch`. -/
structure BatchCall where
  input_dir : String
  output_dir : String
  max_workers : Nat
  file_pattern : String
  save_results : Bool
deriving Repr, DecidableEq

/-- Observable behaviour of one `process_directory` call: the call made to
the batch extractor (if any), the artifacts written by the per-file loop,
and the returned dict. -/
structure DirRun where
  batch_call : Option BatchCall
  writes : List Artifact
  result : BatchResult
deriving Repr, DecidableEq

/-- `process_directory(input_dir, output_dir, model_path, file_pattern,
save_intermediates, store_in_db, max_workers)`. `glob` is the filesystem's
`glob.glob(os.path.join(input_dir, file_pattern))` enumeration. Note the
batch extractor receives `file_pattern.lstrip("*")` while the enumeration
used `file_pattern` itself. -/
def process_directory (c : Collab) (glob : String → String → List String)
    (extracted : String → Option PdfInfo) (input_dir : String)
    (output_dir : String) (model_path : Option String)
    (file_pattern : String) (save_intermediates : Bool)
    (store_in_db : Bool) (max_workers : Nat) : DirRun :=
  match glob input_dir file_pattern with
  | [] => ⟨none, [], .no_files "No PDF files found" 0⟩
  | f :: fs =>
    let acc := batch_loop c extracted model_path save_intermediates
      store_in_db (f :: fs)
    ⟨some ⟨input_dir, output_dir, max_workers, lstripStar file_pattern, true⟩,
     acc.writes,
     .summary (f :: fs).length acc.succ acc.fail acc.prods⟩

/-- A JSON scalar read back out of a batch-result dict. -/
inductive JVal where
  | nat (n : Nat)
  | str (s : String)
deriving Repr, DecidableEq

/-- `result[key]` on the dict returned by `process_directory`: `none`
models a `KeyError`. -/
def BatchResult.field : BatchResult → String → Option JVal
  | .no_files err fc, k =>
    if k = "error" then some (.str err)
    else if k = "file_count" then some (.nat fc)
    else none
  | .summary fc s f p, k =>
    if k = "file_count" then some (.nat fc)
    else if k = "successful" then some (.nat s)
    else if k = "failed" then some (.nat f)
    else if k = "products_found" then some (.nat p)
    else none

/-- The batch-summary logging block of `main` (lines reading
`result['file_count']`, `result['successful']`, `result['failed']`,
`result['products_found']`): `some 0` when every read succeeds and `main`
reaches `return 0`, `none` when a read raises `KeyError` out of `main`. -/
def report_batch_summary (r : BatchResult) : Option Nat :=
  match r.field "file_count", r.field "successful", r.field "failed",
      r.field "products_found" with
  | some _, some _, some _, some _ => some 0
  | _, _, _, _ => none

/-- How `args.input` resolves on the filesystem. -/
inductive InputKind where
  | file
  | dir
  | neither
deriving Repr, DecidableEq

/-- The parsed command-line arguments of `main`. -/
structure Args where
  input : String
  output_dir : String
  model : Option String
  save_intermediates : Bool
  no_db : Bool
  pattern : String
  workers : Nat

/-- `main()`: dispatch on whether the input is a file or a directory;
`some n` is a returned exit status, `none` an exception escaping `main`
(an uncaught error aborts the process with a non-zero status but no
`return`). -/
def main (c : Collab) (glob : String → String → List String)
    (extracted : String → Option PdfInfo) (kind : InputKind)
    (a : Args) : Option Nat :=
  match kind with
  | .file =>
    match (process_single_pdf c a.input a.model a.save_intermediates
        (!a.no_db)).result with
    | .error _ => none
    | .ok _ => some 0
  | .dir =>
    report_batch_summary (process_directory c glob extracted a.input
      a.output_dir a.model a.pattern a.save_intermediates (!a.no_db)
      a.workers).result
  | .neither => some 1

/-! Concrete fixtures used to evaluate the orchestrators on closed inputs. -/

/-- A two-page extraction result. -/
def samplePdfInfo : PdfInfo := ⟨some 2, some false⟩

/-- The recognizer result of the spec's worked example. -/
def sampleEntities : EntitiesData :=
  ⟨some [("ORG", ["Acme"]), ("PRICE", ["19.99"])]⟩

/-- A normalizer result holding two product records. -/
def sampleProcessed : ProcessedData := ⟨some ["p1", "p2"]⟩

/-- A successful storage outcome. -/
def okOutcome : DbResult := ⟨some true, some 1, [1, 2], []⟩

/-- A failed storage outcome (the spec's duplicate-key example). -/
def failOutcome : DbResult := ⟨some false, none, [], ["duplicate key"]⟩

/-- Collaborators that always succeed, with a successful storage sink. -/
def okCollab : Collab :=
  ⟨fun _ => .ok samplePdfInfo,
   fun _ _ => .ok sampleEntities,
   fun _ => .ok sampleProcessed,
   fun _ => .ok okOutcome⟩

/-- Collaborators whose storage sink reports `success = false`. -/
def failStoreCollab : Collab :=
  { okCollab with store_processed_data := fun _ => .ok failOutcome }

/-- Collaborators whose PDF extractor raises. -/
def extractFailCollab : Collab :=
  { okCollab with process_pdf := fun _ => .error "ExtractionError" }

/-- An output directory holding an extraction artifact for every base. -/
def someExtracted : String → Option PdfInfo := fun _ => some samplePdfInfo

/-- An output directory holding no extraction artifacts. -/
def noExtracted : String → Option PdfInfo := fun _ => none

/-- Extraction artifacts for every base except `B`. -/
def missingB : String → Option PdfInfo :=
  fun b => if b = "B" then none else some samplePdfInfo

/-- An extraction artifact distinguishable from `samplePdfInfo`. -/
def badPdfInfo : PdfInfo := ⟨some 0, some true⟩

/-- Extraction artifacts for every base, with `B` holding `badPdfInfo`. -/
def extractedBadB : String → Option PdfInfo :=
  fun b => if b = "B" then some badPdfInfo else some samplePdfInfo

/-- Collaborators whose entity recognizer raises on `badPdfInfo` and
succeeds otherwise. -/
def nerFailOnBad : Collab :=
  { okCollab with
    extract_entities := fun pi _ =>
      if pi = badPdfInfo then .error "RecognitionError"
      else .ok sampleEntities }

/-- A directory enumeration matching three files. -/
def glob3 : String → String → List String :=
  fun _ _ => ["A.pdf", "B.pdf", "C.pdf"]

/-- A directory enumeration matching nothing. -/
def emptyGlob : String → String → List String := fun _ _ => []

/-- Concrete command-line arguments. -/
def sampleArgs : Args := ⟨"in", "out", none, false, false, "*.pdf", 4⟩

/-! Helper lemmas about the batch per-file step and loop. -/

/-- Every iteration of the per-file loop increments exactly one of the
`successful` / `failed` counters. -/
theorem process_batch_file_tally (c : Collab) (x : String → Option PdfInfo)
    (mp : Option String) (si db : Bool) (f : String) :
    (process_batch_file c x mp si db f).succ
      + (process_batch_file c x mp si db f).fail = 1 := by
  cases hx : x (splitextRoot (basename f)) with
  | none => simp [process_batch_file, hx]
  | some pi =>
    cases hner : c.extract_entities pi mp with
    | error e => simp [process_batch_file, hx, hner]
    | ok ed =>
      cases hnorm : c.process_extracted_data ed with
      | error e => simp [process_batch_file, hx, hner, hnorm]
      | ok pd =>
        cases db with
        | false => simp [process_batch_file, hx, hner, hnorm]
        | true =>
          cases hst : c.store_processed_data pd with
          | error e => simp [process_batch_file, hx, hner, hnorm, hst]
          | ok r =>
            cases hr : r.success.getD false <;>
              simp [process_batch_file, hx, hner, hnorm, hst, hr]

/-- The loop's counters sum to the number of files processed. -/
theorem batch_loop_tally (c : Collab) (x : String → Option PdfInfo)
    (mp : Option String) (si db : Bool) (fs : List String) :
    (batch_loop c x mp si db fs).succ + (batch_loop c x mp si db fs).fail
      = fs.length := by
  induction fs with
  | nil => rfl
  | cons f fs ih =>
    have h := process_batch_file_tally c x mp si db f
    dsimp only [batch_loop]
    simp only [List.length_cons]
    omega

/-- A file whose extraction artifact is absent contributes exactly one
failure and no writes. -/
theorem process_batch_file_missing (c : Collab) (x : String → Option PdfInfo)
    (mp : Option String) (si db : Bool) (f : String)
    (h : x (splitextRoot (basename f)) = none) :
    process_batch_file c x mp si db f = ⟨[], 0, 1, 0⟩ := by
  simp [process_batch_file, h]

/-- A file whose artifact is present and whose recognition and
normalization succeed gets its normalized artifact written, whatever the
storage flag and outcome. -/
theorem process_batch_file_processed_mem (c : Collab)
    (x : String → Option PdfInfo) (mp : Option String) (si db : Bool)
    (f : String) (pi : PdfInfo) (ed : EntitiesData) (pd : ProcessedData)
    (hx : x (splitextRoot (basename f)) = some pi)
    (hner : c.extract_entities pi mp = .ok ed)
    (hnorm : c.process_extracted_data ed = .ok pd) :
    Artifact.processed (splitextRoot (basename f))
      ∈ (process_batch_file c x mp si db f).writes := by
  cases db with
  | false => simp [process_batch_file, hx, hner, hnorm]
  | true =>
    cases hst : c.store_processed_data pd with
    | error e => simp [process_batch_file, hx, hner, hnorm, hst]
    | ok r =>
      cases hr : r.success.getD false <;>
        simp [process_batch_file, hx, hner, hnorm, hst, hr]

/-- Whatever one file of the batch writes ends up among the batch's
writes. -/
theorem batch_loop_writes_mem (c : Collab) (x : String → Option PdfInfo)
    (mp : Option String) (si db : Bool) (a : Artifact) (f : String)
    (fs : List String) (hf : f ∈ fs)
    (ha : a ∈ (process_batch_file c x mp si db f).writes) :
    a ∈ (batch_loop c x mp si db fs).writes := by
  induction fs with
  | nil => cases hf
  | cons g gs ih =>
    dsimp only [batch_loop]
    rw [List.mem_append]
    rcases List.mem_cons.mp hf with h | h
    · exact Or.inl (h ▸ ha)
    · exact Or.inr (ih h)

/-- A file fails its loop step — contributing exactly one failure and no
success — whenever its extraction artifact is absent or any collaborator
raises while processing it (entity recognition, normalization, or, with
storage enabled, the storage sink). -/
theorem process_batch_file_fail_of_error (c : Collab)
    (x : String → Option PdfInfo) (mp : Option String) (si db : Bool)
    (g : String)
    (h : x (splitextRoot (basename g)) = none ∨
      (∃ pi e, x (splitextRoot (basename g)) = some pi ∧
        c.extract_entities pi mp = .error e) ∨
      (∃ pi ed e, x (splitextRoot (basename g)) = some pi ∧
        c.extract_entities pi mp = .ok ed ∧
        c.process_extracted_data ed = .error e) ∨
      (∃ pi ed pd e, db = true ∧
        x (splitextRoot (basename g)) = some pi ∧
        c.extract_entities pi mp = .ok ed ∧
        c.process_extracted_data ed = .ok pd ∧
        c.store_processed_data pd = .error e)) :
    (process_batch_file c x mp si db g).fail = 1 ∧
    (process_batch_file c x mp si db g).succ = 0 := by
  rcases h with hm | ⟨pi, e, hpi, he⟩ | ⟨pi, ed, e, hpi, hed, he⟩ |
    ⟨pi, ed, pd, e, hdb, hpi, hed, hnorm, hst⟩
  · rw [process_batch_file_missing c x mp si db g hm]
    exact ⟨rfl, rfl⟩
  · constructor <;> simp [process_batch_file, hpi, he]
  · constructor <;> simp [process_batch_file, hpi, hed, he]
  · subst hdb
    constructor <;> simp [process_batch_file, hpi, hed, hnorm, hst]

/-- One file's failure contribution is a lower bound on the batch's failed
counter. -/
theorem batch_loop_fail_le (c : Collab) (x : String → Option PdfInfo)
    (mp : Option String) (si db : Bool) (f : String) (fs : List String)
    (hf : f ∈ fs) :
    (process_batch_file c x mp si db f).fail
      ≤ (batch_loop c x mp si db fs).fail := by
  induction fs with
  | nil => cases hf
  | cons g gs ih =>
    dsimp only [batch_loop]
    rcases List.mem_cons.mp hf with h | h
    · exact h ▸ Nat.le_add_right _ _
    · exact Nat.le_trans (ih h) (Nat.le_add_left _ _)

/-- C1: for every completed batch run of `process_directory` with at least
one matching file, the returned summary satisfies
`successful + failed = file_count` where `file_count` is the length of the
glob enumeration; and a file whose extraction artifact is missing is
counted in `failed` (its loop step contributes 0 to successful and 1 to
failed). -/
theorem batch_tally_invariant (c : Collab)
    (glob : String → String → List String) (x : String → Option PdfInfo)
    (idir odir : String) (mp : Option String) (pat : String) (si db : Bool)
    (mw : Nat) (hne : glob idir pat ≠ []) :
    (∃ s f p,
      (process_directory c glob x idir odir mp pat si db mw).result =
        .summary (glob idir pat).length s f p ∧
      s + f = (glob idir pat).length) ∧
    ∀ g, x (splitextRoot (basename g)) = none →
      (process_batch_file c x mp si db g).succ = 0 ∧
      (process_batch_file c x mp si db g).fail = 1 := by
  constructor
  · cases hg : glob idir pat with
    | nil => exact absurd hg hne
    | cons f fs =>
      refine ⟨(batch_loop c x mp si db (f :: fs)).succ,
        (batch_loop c x mp si db (f :: fs)).fail,
        (batch_loop c x mp si db (f :: fs)).prods, ?_, ?_⟩
      · unfold process_directory
        rw [hg]
      · exact batch_loop_tally c x mp si db (f :: fs)
  · intro g hg
    rw [process_batch_file_missing c x mp si db g hg]
    exact ⟨rfl, rfl⟩

/-- Witness for C1 at a concrete batch of three files whose `B` artifact
is missing. -/
theorem batch_tally_invariant_witness :
    glob3 "in" "*.pdf" ≠ [] ∧
    ((∃ s f p,
        (process_directory okCollab glob3 missingB "in" "out" none "*.pdf"
          false true 4).result =
          .summary (glob3 "in" "*.pdf").length s f p ∧
        s + f = (glob3 "in" "*.pdf").length) ∧
      ∀ g, missingB (splitextRoot (basename g)) = none →
        (process_batch_file okCollab missingB none false true g).succ = 0 ∧
        (process_batch_file okCollab missingB none false true g).fail = 1) :=
  ⟨by decide,
   batch_tally_invariant okCollab glob3 missingB "in" "out" none "*.pdf"
     false true 4 (by decide)⟩

/-- C2: a per-file failure never aborts the batch: when one file's
extraction artifact is absent, or any exception is raised while
processing it (entity recognition, normalization, or — with storage
enabled — the storage sink), that file's loop step counts exactly one
failure, the run still returns a summary over the full enumeration with
`failed ≥ 1`, and any other file whose stages succeed still gets its
normalized artifact written. -/
theorem batch_continues_after_file_failure (c : Collab)
    (glob : String → String → List String) (x : String → Option PdfInfo)
    (idir odir : String) (mp : Option String) (pat : String) (si db : Bool)
    (mw : Nat) (g : String) (hg : g ∈ glob idir pat)
    (hfailg : x (splitextRoot (basename g)) = none ∨
      (∃ pig e, x (splitextRoot (basename g)) = some pig ∧
        c.extract_entities pig mp = .error e) ∨
      (∃ pig edg e, x (splitextRoot (basename g)) = some pig ∧
        c.extract_entities pig mp = .ok edg ∧
        c.process_extracted_data edg = .error e) ∨
      (∃ pig edg pdg e, db = true ∧
        x (splitextRoot (basename g)) = some pig ∧
        c.extract_entities pig mp = .ok edg ∧
        c.process_extracted_data edg = .ok pdg ∧
        c.store_processed_data pdg = .error e))
    (f : String) (hf : f ∈ glob idir pat) (pi : PdfInfo)
    (ed : EntitiesData) (pd : ProcessedData)
    (hx : x (splitextRoot (basename f)) = some pi)
    (hner : c.extract_entities pi mp = .ok ed)
    (hnorm : c.process_extracted_data ed = .ok pd) :
    (∃ s fl p,
      (process_directory c glob x idir odir mp pat si db mw).result =
        .summary (glob idir pat).length s fl p ∧ 1 ≤ fl) ∧
    (process_batch_file c x mp si db g).fail = 1 ∧
    (process_batch_file c x mp si db g).succ = 0 ∧
    Artifact.processed (splitextRoot (basename f))
      ∈ (process_directory c glob x idir odir mp pat si db mw).writes := by
  have hstep := process_batch_file_fail_of_error c x mp si db g hfailg
  cases hgl : glob idir pat with
  | nil =>
    rw [hgl] at hg
    cases hg
  | cons a as =>
    rw [hgl] at hg hf
    have hres : (process_directory c glob x idir odir mp pat si db mw).result
        = .summary (a :: as).length (batch_loop c x mp si db (a :: as)).succ
          (batch_loop c x mp si db (a :: as)).fail
          (batch_loop c x mp si db (a :: as)).prods := by
      unfold process_directory
      rw [hgl]
    have hw : (process_directory c glob x idir odir mp pat si db mw).writes
        = (batch_loop c x mp si db (a :: as)).writes := by
      unfold process_directory
      rw [hgl]
    refine ⟨⟨_, _, _, hres, ?_⟩, hstep.1, hstep.2, ?_⟩
    · have h1 := batch_loop_fail_le c x mp si db g (a :: as) hg
      rw [hstep.1] at h1
      exact h1
    · rw [hw]
      exact batch_loop_writes_mem c x mp si db _ f (a :: as) hf
        (process_batch_file_processed_mem c x mp si db f pi ed pd hx hner
          hnorm)

/-- Witness for C2 at two concrete three-file batches: one where `B`'s
extraction artifact is missing, one where the entity recognizer raises on
`B`'s artifact; in both, `B` counts as the failure and `A` still gets its
normalized artifact written. -/
theorem batch_continues_after_file_failure_witness :
    ("B.pdf" ∈ glob3 "in" "*.pdf" ∧
      missingB (splitextRoot (basename "B.pdf")) = none ∧
      extractedBadB (splitextRoot (basename "B.pdf")) = some badPdfInfo ∧
      nerFailOnBad.extract_entities badPdfInfo none =
        .error "RecognitionError" ∧
      "A.pdf" ∈ glob3 "in" "*.pdf") ∧
    ((∃ s fl p,
        (process_directory okCollab glob3 missingB "in" "out" none "*.pdf"
          false true 4).result =
          .summary (glob3 "in" "*.pdf").length s fl p ∧ 1 ≤ fl) ∧
      (process_batch_file okCollab missingB none false true "B.pdf").fail
        = 1 ∧
      (process_batch_file okCollab missingB none false true "B.pdf").succ
        = 0 ∧
      Artifact.processed (splitextRoot (basename "A.pdf"))
        ∈ (process_directory okCollab glob3 missingB "in" "out" none
            "*.pdf" false true 4).writes) ∧
    ((∃ s fl p,
        (process_directory nerFailOnBad glob3 extractedBadB "in" "out"
          none "*.pdf" false true 4).result =
          .summary (glob3 "in" "*.pdf").length s fl p ∧ 1 ≤ fl) ∧
      (process_batch_file nerFailOnBad extractedBadB none false true
        "B.pdf").fail = 1 ∧
      (process_batch_file nerFailOnBad extractedBadB none false true
        "B.pdf").succ = 0 ∧
      Artifact.processed (splitextRoot (basename "A.pdf"))
        ∈ (process_directory nerFailOnBad glob3 extractedBadB "in" "out"
            none "*.pdf" false true 4).writes) :=
  ⟨⟨by decide, by decide, by decide, rfl, by decide⟩,
   batch_continues_after_file_failure okCollab glob3 missingB "in" "out"
     none "*.pdf" false true 4 "B.pdf" (by decide) (Or.inl (by decide))
     "A.pdf" (by decide) samplePdfInfo sampleEntities sampleProcessed
     (by decide) rfl rfl,
   batch_continues_after_file_failure nerFailOnBad glob3 extractedBadB
     "in" "out" none "*.pdf" false true 4 "B.pdf" (by decide)
     (Or.inr (Or.inl ⟨badPdfInfo, "RecognitionError", by decide, rfl⟩))
     "A.pdf" (by decide) samplePdfInfo sampleEntities sampleProcessed
     (by decide) rfl rfl⟩

/-- C3: in a batch run the classification criterion depends on the storage
flag: with storage enabled the file is classified by the outcome's
`success` flag and contributes its product count only on success; with
storage disabled it is classified successful unconditionally and always
contributes its product count. -/
theorem batch_classification_by_storage_flag (c : Collab)
    (x : String → Option PdfInfo) (mp : Option String) (si : Bool)
    (f : String) (pi : PdfInfo) (ed : EntitiesData) (pd : ProcessedData)
    (hx : x (splitextRoot (basename f)) = some pi)
    (hner : c.extract_entities pi mp = .ok ed)
    (hnorm : c.process_extracted_data ed = .ok pd) :
    (∀ r, c.store_processed_data pd = .ok r →
      process_batch_file c x mp si true f =
        ⟨(if si then [Artifact.entities (splitextRoot (basename f))]
            else []) ++
          [Artifact.processed (splitextRoot (basename f))] ++
          [Artifact.db_result (splitextRoot (basename f))],
         if r.success.getD false then 1 else 0,
         if r.success.getD false then 0 else 1,
         if r.success.getD false then productCount pd else 0⟩) ∧
    process_batch_file c x mp si false f =
      ⟨(if si then [Artifact.entities (splitextRoot (basename f))]
          else []) ++
        [Artifact.processed (splitextRoot (basename f))],
       1, 0, productCount pd⟩ := by
  constructor
  · intro r hr
    cases hs : r.success.getD false <;>
      simp [process_batch_file, hx, hner, hnorm, hr, hs]
  · simp [process_batch_file, hx, hner, hnorm]

/-- Witness for C3 at a storage sink reporting a duplicate-key failure:
the file counts as failed and contributes no products. -/
theorem batch_classification_by_storage_flag_witness :
    (someExtracted (splitextRoot (basename "A.pdf")) = some samplePdfInfo ∧
      failStoreCollab.store_processed_data sampleProcessed =
        .ok failOutcome ∧
      failOutcome.success.getD false = false ∧ productCount sampleProcessed = 2) ∧
    ((∀ r, failStoreCollab.store_processed_data sampleProcessed = .ok r →
        process_batch_file failStoreCollab someExtracted none false true
            "A.pdf" =
          ⟨(if false then
              [Artifact.entities (splitextRoot (basename "A.pdf"))]
            else []) ++
            [Artifact.processed (splitextRoot (basename "A.pdf"))] ++
            [Artifact.db_result (splitextRoot (basename "A.pdf"))],
           if r.success.getD false then 1 else 0,
           if r.success.getD false then 0 else 1,
           if r.success.getD false then productCount sampleProcessed
           else 0⟩) ∧
      process_batch_file failStoreCollab someExtracted none false false
          "A.pdf" =
        ⟨(if false then
            [Artifact.entities (splitextRoot (basename "A.pdf"))]
          else []) ++
          [Artifact.processed (splitextRoot (basename "A.pdf"))],
         1, 0, productCount sampleProcessed⟩) :=
  ⟨⟨by decide, rfl, by decide, by decide⟩,
   batch_classification_by_storage_flag failStoreCollab someExtracted none
     false "A.pdf" samplePdfInfo sampleEntities sampleProcessed (by decide)
     rfl rfl⟩

/-- C4: in single-document mode an exception raised by the extraction,
entity-recognition or normalization collaborator propagates out of
`process_single_pdf` uncaught: the run ends in an error (no summary is
returned), no later-stage artifacts (`_processed`, `_db_result`) are
written for the document, and the storage sink is never reached. -/
theorem single_collaborator_error_propagates (c : Collab) (p : String)
    (mp : Option String) (si db : Bool)
    (h : (∃ e, c.process_pdf p = .error e) ∨
      (∃ pi e, c.process_pdf p = .ok pi ∧
        c.extract_entities pi mp = .error e) ∨
      (∃ pi ed e, c.process_pdf p = .ok pi ∧
        c.extract_entities pi mp = .ok ed ∧
        c.process_extracted_data ed = .error e)) :
    (∃ e, (process_single_pdf c p mp si db).result = .error e) ∧
    Artifact.processed (base_name p)
      ∉ (process_single_pdf c p mp si db).writes ∧
    Artifact.db_result (base_name p)
      ∉ (process_single_pdf c p mp si db).writes ∧
    (process_single_pdf c p mp si db).sink_calls = [] ∧
    (∀ e, c.process_pdf p = .error e →
      (process_single_pdf c p mp si db).writes = []) ∧
    (∀ pi e, c.process_pdf p = .ok pi →
      c.extract_entities pi mp = .error e →
      Artifact.entities (base_name p)
        ∉ (process_single_pdf c p mp si db).writes) := by
  unfold base_name
  have hlast :
      (∀ e, c.process_pdf p = .error e →
        (process_single_pdf c p mp si db).writes = []) ∧
      ∀ pi e, c.process_pdf p = .ok pi →
        c.extract_entities pi mp = .error e →
        Artifact.entities (splitextRoot (basename p))
          ∉ (process_single_pdf c p mp si db).writes := by
    constructor
    · intro e he
      simp [process_single_pdf, he]
    · intro pi e hpi he
      cases si <;> simp [process_single_pdf, hpi, he]
  rcases h with ⟨e, he⟩ | ⟨pi, e, hpi, he⟩ | ⟨pi, ed, e, hpi, hed, he⟩
  · refine ⟨⟨e, ?_⟩, ?_, ?_, ?_, hlast.1, hlast.2⟩ <;>
      simp [process_single_pdf, he]
  · refine ⟨⟨e, ?_⟩, ?_, ?_, ?_, hlast.1, hlast.2⟩ <;>
      cases si <;> simp [process_single_pdf, hpi, he]
  · refine ⟨⟨e, ?_⟩, ?_, ?_, ?_, hlast.1, hlast.2⟩ <;>
      cases si <;> simp [process_single_pdf, hpi, hed, he]

/-- Witness for C4 at a raising PDF extractor. -/
theorem single_collaborator_error_propagates_witness :
    (extractFailCollab.process_pdf "A.pdf" = .error "ExtractionError") ∧
    ((∃ e, (process_single_pdf extractFailCollab "A.pdf" none true
        true).result = .error e) ∧
      Artifact.processed (base_name "A.pdf")
        ∉ (process_single_pdf extractFailCollab "A.pdf" none true
            true).writes ∧
      Artifact.db_result (base_name "A.pdf")
        ∉ (process_single_pdf extractFailCollab "A.pdf" none true
            true).writes ∧
      (process_single_pdf extractFailCollab "A.pdf" none true
          true).sink_calls = [] ∧
      (∀ e, extractFailCollab.process_pdf "A.pdf" = .error e →
        (process_single_pdf extractFailCollab "A.pdf" none true
          true).writes = []) ∧
      (∀ pi e, extractFailCollab.process_pdf "A.pdf" = .ok pi →
        extractFailCollab.extract_entities pi none = .error e →
        Artifact.entities (base_name "A.pdf")
          ∉ (process_single_pdf extractFailCollab "A.pdf" none true
              true).writes)) :=
  ⟨rfl,
   single_collaborator_error_propagates extractFailCollab "A.pdf" none true
     true (Or.inl ⟨"ExtractionError", rfl⟩)⟩

/-- C5: with the storage flag disabled the storage sink is never invoked
and the returned summary's `database_storage` section is the skipped
marker; with it enabled the section is the outcome returned by the
sink. -/
theorem single_storage_section_discriminates (c : Collab) (p : String)
    (mp : Option String) (si : Bool) (pi : PdfInfo) (ed : EntitiesData)
    (pd : ProcessedData) (hext : c.process_pdf p = .ok pi)
    (hner : c.extract_entities pi mp = .ok ed)
    (hnorm : c.process_extracted_data ed = .ok pd) :
    (process_single_pdf c p mp si false).sink_calls = [] ∧
    (∀ s, (process_single_pdf c p mp si false).result = .ok s →
      s.database_storage = DbSection.skippedMarker) ∧
    (∀ r s, c.store_processed_data pd = .ok r →
      (process_single_pdf c p mp si true).result = .ok s →
      s.database_storage = DbSection.stored r) := by
  refine ⟨?_, ?_, ?_⟩
  · simp [process_single_pdf, hext, hner, hnorm]
  · intro s hs
    simp [process_single_pdf, hext, hner, hnorm] at hs
    rw [← hs]
    rfl
  · intro r s hr hs
    simp [process_single_pdf, hext, hner, hnorm, hr] at hs
    rw [← hs]
    rfl

/-- Witness for C5 at the always-succeeding collaborators. -/
theorem single_storage_section_discriminates_witness :
    (okCollab.process_pdf "A.pdf" = .ok samplePdfInfo ∧
      okCollab.store_processed_data sampleProcessed = .ok okOutcome) ∧
    ((process_single_pdf okCollab "A.pdf" none false false).sink_calls
        = [] ∧
      (∀ s, (process_single_pdf okCollab "A.pdf" none false false).result
          = .ok s → s.database_storage = DbSection.skippedMarker) ∧
      (∀ r s, okCollab.store_processed_data sampleProcessed = .ok r →
        (process_single_pdf okCollab "A.pdf" none false true).result
          = .ok s → s.database_storage = DbSection.stored r)) :=
  ⟨⟨rfl, rfl⟩,
   single_storage_section_discriminates okCollab "A.pdf" none false
     samplePdfInfo sampleEntities sampleProcessed rfl rfl rfl⟩

/-- C6: artifact-writing conditions. In single mode a run whose stages all
succeed writes `_text` and `_entities` exactly when intermediates are
requested, `_processed` unconditionally, and `_db_result` exactly when
storage is enabled; a batch per-file step writes the same except that no
`_text` artifact exists in batch mode; no other artifacts are written. -/
theorem artifact_write_conditions (c : Collab) (p : String)
    (mp : Option String) (si db : Bool) (pi : PdfInfo) (ed : EntitiesData)
    (pd : ProcessedData) (r : DbResult) (hext : c.process_pdf p = .ok pi)
    (hner : c.extract_entities pi mp = .ok ed)
    (hnorm : c.process_extracted_data ed = .ok pd)
    (hst : c.store_processed_data pd = .ok r)
    (x : String → Option PdfInfo) (bf : String) (pi2 : PdfInfo)
    (ed2 : EntitiesData) (pd2 : ProcessedData) (r2 : DbResult)
    (hx : x (splitextRoot (basename bf)) = some pi2)
    (hner2 : c.extract_entities pi2 mp = .ok ed2)
    (hnorm2 : c.process_extracted_data ed2 = .ok pd2)
    (hst2 : c.store_processed_data pd2 = .ok r2) :
    (process_single_pdf c p mp si db).writes =
      (if si then [Artifact.text (base_name p)] else []) ++
      (if si then [Artifact.entities (base_name p)] else []) ++
      [Artifact.processed (base_name p)] ++
      (if db then [Artifact.db_result (base_name p)] else []) ∧
    (process_batch_file c x mp si db bf).writes =
      (if si then [Artifact.entities (splitextRoot (basename bf))]
        else []) ++
      [Artifact.processed (splitextRoot (basename bf))] ++
      (if db then [Artifact.db_result (splitextRoot (basename bf))]
        else []) := by
  unfold base_name
  constructor
  · cases db <;> cases si <;>
      simp [process_single_pdf, hext, hner, hnorm, hst]
  · cases db with
    | false =>
      cases si <;> simp [process_batch_file, hx, hner2, hnorm2]
    | true =>
      cases hr : r2.success.getD false <;> cases si <;>
        simp [process_batch_file, hx, hner2, hnorm2, hst2, hr]

/-- Witness for C6 with intermediates and storage both enabled. -/
theorem artifact_write_conditions_witness :
    (okCollab.process_pdf "A.pdf" = .ok samplePdfInfo ∧
      someExtracted (splitextRoot (basename "B.pdf"))
        = some samplePdfInfo) ∧
    ((process_single_pdf okCollab "A.pdf" none true true).writes =
        (if true then [Artifact.text (base_name "A.pdf")] else []) ++
        (if true then [Artifact.entities (base_name "A.pdf")] else []) ++
        [Artifact.processed (base_name "A.pdf")] ++
        (if true then [Artifact.db_result (base_name "A.pdf")]
          else []) ∧
      (process_batch_file okCollab someExtracted none true true
          "B.pdf").writes =
        (if true then
          [Artifact.entities (splitextRoot (basename "B.pdf"))]
        else []) ++
        [Artifact.processed (splitextRoot (basename "B.pdf"))] ++
        (if true then
          [Artifact.db_result (splitextRoot (basename "B.pdf"))]
        else [])) :=
  ⟨⟨rfl, by decide⟩,
   artifact_write_conditions okCollab "A.pdf" none true true samplePdfInfo
     sampleEntities sampleProcessed okOutcome rfl rfl rfl rfl someExtracted
     "B.pdf" samplePdfInfo sampleEntities sampleProcessed okOutcome
     (by decide) rfl rfl rfl⟩

/-- Reading the batch summary fields out of a completed summary dict
always succeeds. -/
theorem report_batch_summary_of_summary (fc s f p : Nat) :
    report_batch_summary (.summary fc s f p) = some 0 := rfl

/-- Reading `result['successful']` out of the zero-file error dict raises
`KeyError`. -/
theorem report_batch_summary_of_no_files (e : String) (fc : Nat) :
    report_batch_summary (.no_files e fc) = none := rfl

/-- C7 counterexample: dispatching a directory whose glob matches zero
files makes the orchestrator return the error dict, yet `main` does not
reach `return 0`: the summary-logging read `result['successful']` raises
`KeyError` out of `main`, so the process status is not 0. -/
theorem entrypoint_exit_status_counterexample :
    (process_directory okCollab emptyGlob someExtracted "in" "out" none
        "*.pdf" false true 4).result =
      BatchResult.no_files "No PDF files found" 0 ∧
    main okCollab emptyGlob someExtracted InputKind.dir sampleArgs
      ≠ some 0 :=
  ⟨rfl, by decide⟩

/-- C7 (amended): the entry point returns status 1 when the input is
neither file nor directory; status 0 when the single-document orchestrator
returns, and for batch runs in which at least one file matched (partial
per-file failures included); but for a batch matching zero files the
summary-reporting step raises an uncaught `KeyError`, so no status is
returned and the process exits non-zero. -/
theorem entrypoint_exit_status_amended (c : Collab)
    (glob : String → String → List String) (x : String → Option PdfInfo)
    (a : Args) :
    main c glob x InputKind.neither a = some 1 ∧
    (∀ s, (process_single_pdf c a.input a.model a.save_intermediates
        (!a.no_db)).result = .ok s →
      main c glob x InputKind.file a = some 0) ∧
    (glob a.input a.pattern ≠ [] →
      main c glob x InputKind.dir a = some 0) ∧
    (glob a.input a.pattern = [] →
      main c glob x InputKind.dir a = none) := by
  refine ⟨rfl, ?_, ?_, ?_⟩
  · intro s hs
    unfold main
    rw [hs]
  · intro h
    cases hg : glob a.input a.pattern with
    | nil => exact absurd hg h
    | cons f fs =>
      unfold main
      have : (process_directory c glob x a.input a.output_dir a.model
          a.pattern a.save_intermediates (!a.no_db) a.workers).result =
          .summary (f :: fs).length
            (batch_loop c x a.model a.save_intermediates (!a.no_db)
              (f :: fs)).succ
            (batch_loop c x a.model a.save_intermediates (!a.no_db)
              (f :: fs)).fail
            (batch_loop c x a.model a.save_intermediates (!a.no_db)
              (f :: fs)).prods := by
        unfold process_directory
        rw [hg]
      rw [this, report_batch_summary_of_summary]
  · intro h
    unfold main
    have : (process_directory c glob x a.input a.output_dir a.model
        a.pattern a.save_intermediates (!a.no_db) a.workers).result =
        .no_files "No PDF files found" 0 := by
      unfold process_directory
      rw [h]
    rw [this, report_batch_summary_of_no_files]

/-- Witness for the amended C7, exercising all four exit behaviours. -/
theorem entrypoint_exit_status_amended_witness :
    main okCollab glob3 someExtracted InputKind.neither sampleArgs
      = some 1 ∧
    main okCollab glob3 someExtracted InputKind.file sampleArgs = some 0 ∧
    main okCollab glob3 someExtracted InputKind.dir sampleArgs = some 0 ∧
    main okCollab emptyGlob someExtracted InputKind.dir sampleArgs
      = none :=
  ⟨(entrypoint_exit_status_amended okCollab glob3 someExtracted
      sampleArgs).1,
   (entrypoint_exit_status_amended okCollab glob3 someExtracted
      sampleArgs).2.1 _ rfl,
   (entrypoint_exit_status_amended okCollab glob3 someExtracted
      sampleArgs).2.2.1 (by decide),
   (entrypoint_exit_status_amended okCollab emptyGlob someExtracted
      sampleArgs).2.2.2 rfl⟩

/-- C8: a batch run over a directory in which the glob matches zero files
returns exactly `{'error': 'No PDF files found', 'file_count': 0}` with a
non-empty error string, the batch extractor is never invoked, and no
artifacts are written. -/
theorem empty_directory_terminal_result (c : Collab)
    (glob : String → String → List String) (x : String → Option PdfInfo)
    (idir odir : String) (mp : Option String) (pat : String) (si db : Bool)
    (mw : Nat) (h : glob idir pat = []) :
    process_directory c glob x idir odir mp pat si db mw =
      ⟨none, [], .no_files "No PDF files found" 0⟩ ∧
    "No PDF files found" ≠ "" := by
  constructor
  · unfold process_directory
    rw [h]
  · decide

/-- Witness for C8 at a glob matching nothing. -/
theorem empty_directory_terminal_result_witness :
    emptyGlob "in" "*.pdf" = [] ∧
    (process_directory okCollab emptyGlob someExtracted "in" "out" none
        "*.pdf" true true 4 =
      ⟨none, [], .no_files "No PDF files found" 0⟩ ∧
      "No PDF files found" ≠ "") :=
  ⟨rfl,
   empty_directory_terminal_result okCollab emptyGlob someExtracted "in"
     "out" none "*.pdf" true true 4 rfl⟩

/-- C9: the single-document summary's entity section lists the ordered
keys of the recognizer result and the sum of the lengths of all
entity-value sequences. -/
theorem entity_section_reporting (c : Collab) (p : String)
    (mp : Option String) (si db : Bool) (pi : PdfInfo) (ed : EntitiesData)
    (pd : ProcessedData) (r : DbResult) (hext : c.process_pdf p = .ok pi)
    (hner : c.extract_entities pi mp = .ok ed)
    (hnorm : c.process_extracted_data ed = .ok pd)
    (hst : db = true → c.store_processed_data pd = .ok r) :
    ∃ s, (process_single_pdf c p mp si db).result = .ok s ∧
      s.entity_extraction.entity_types =
        (ed.entities.getD []).map Prod.fst ∧
      s.entity_extraction.entity_count =
        ((ed.entities.getD []).map (fun kv => kv.2.length)).sum := by
  cases db with
  | false =>
    refine ⟨mk_summary (basename p) pi ed pd DbSection.skippedMarker, ?_,
      rfl, rfl⟩
    simp [process_single_pdf, hext, hner, hnorm]
  | true =>
    refine ⟨mk_summary (basename p) pi ed pd (DbSection.stored r), ?_,
      rfl, rfl⟩
    simp [process_single_pdf, hext, hner, hnorm, hst rfl]

/-- Witness for C9 at the recognizer result
`{"ORG": ["Acme"], "PRICE": ["19.99"]}`: the reported types are
`["ORG", "PRICE"]` and the count is 2. -/
theorem entity_section_reporting_witness :
    (∃ s, (process_single_pdf okCollab "A.pdf" none false true).result
        = .ok s ∧
      s.entity_extraction.entity_types =
        (sampleEntities.entities.getD []).map Prod.fst ∧
      s.entity_extraction.entity_count =
        ((sampleEntities.entities.getD []).map
          (fun kv => kv.2.length)).sum) ∧
    (sampleEntities.entities.getD []).map Prod.fst = ["ORG", "PRICE"] ∧
    ((sampleEntities.entities.getD []).map (fun kv => kv.2.length)).sum
      = 2 :=
  ⟨entity_section_reporting okCollab "A.pdf" none false true samplePdfInfo
     sampleEntities sampleProcessed okOutcome rfl rfl rfl (fun _ => rfl),
   by decide, by decide⟩

/-- Leading stars are removed, so a pattern that begins with `*` is
changed by `lstrip("*")`. -/
theorem lstripStar_ne_of_star (s : String)
    (h : s.data.head? = some '*') : lstripStar s ≠ s := by
  intro he
  have hlen : (lstripStar s).data.length = s.data.length := by rw [he]
  cases hd : s.data with
  | nil => rw [hd] at h; cases h
  | cons a l =>
    rw [hd] at h
    have ha : a = '*' := Option.some.inj h
    have hdrop : (lstripStar s).data = l.dropWhile (· == '*') := by
      simp [lstripStar, hd, ha, List.dropWhile_cons]
    rw [hdrop, hd] at hlen
    have hle := (List.dropWhile_suffix (l := l) (· == '*')).length_le
    simp only [List.length_cons] at hlen
    omega

/-- C10: in batch mode the pattern forwarded to the batch extractor is the
user pattern with all leading `*` characters removed, while the
orchestrator's own enumeration uses the unmodified pattern; hence for a
pattern beginning with `*` the two pattern strings differ. -/
theorem batch_pattern_lstrip_mismatch (c : Collab)
    (glob : String → String → List String) (x : String → Option PdfInfo)
    (idir odir : String) (mp : Option String) (pat : String) (si db : Bool)
    (mw : Nat) (hstar : pat.data.head? = some '*')
    (hne : glob idir pat ≠ []) :
    ∃ bc, (process_directory c glob x idir odir mp pat si db mw).batch_call
        = some bc ∧
      bc.file_pattern = lstripStar pat ∧
      bc.file_pattern ≠ pat ∧
      ∃ s f p, (process_directory c glob x idir odir mp pat si db
        mw).result = .summary (glob idir pat).length s f p := by
  cases hg : glob idir pat with
  | nil => exact absurd hg hne
  | cons f fs =>
    refine ⟨⟨idir, odir, mw, lstripStar pat, true⟩, ?_, rfl,
      lstripStar_ne_of_star pat hstar, ?_⟩
    · unfold process_directory
      rw [hg]
    · refine ⟨(batch_loop c x mp si db (f :: fs)).succ,
        (batch_loop c x mp si db (f :: fs)).fail,
        (batch_loop c x mp si db (f :: fs)).prods, ?_⟩
      unfold process_directory
      rw [hg]

/-- Witness for C10 at the default pattern: `*.pdf` is forwarded as
`.pdf`. -/
theorem batch_pattern_lstrip_mismatch_witness :
    ("*.pdf".data.head? = some '*' ∧ glob3 "in" "*.pdf" ≠ [] ∧
      lstripStar "*.pdf" = ".pdf") ∧
    ∃ bc, (process_directory okCollab glob3 someExtracted "in" "out" none
        "*.pdf" false true 4).batch_call = some bc ∧
      bc.file_pattern = lstripStar "*.pdf" ∧
      bc.file_pattern ≠ "*.pdf" ∧
      ∃ s f p, (process_directory okCollab glob3 someExtracted "in" "out"
        none "*.pdf" false true 4).result =
          .summary (glob3 "in" "*.pdf").length s f p :=
  ⟨⟨by decide, by decide, by decide⟩,
   batch_pattern_lstrip_mismatch okCollab glob3 someExtracted "in" "out"
     none "*.pdf" false true 4 (by decide) (by decide)⟩

end PDFPipeline
